import Mathlib

/-!
Shallow embedding of the EnglishMasterAI server: the shared schema
(part_009), the in-memory storage layer (storage.ts), the Mistral and
OpenAI evaluation adapters (part_013, part_014), the AssemblyAI adapter
interface (part_012) and the Express route handlers (routes.ts, second
revision, lines 251-1048).

Conventions of the embedding:
* JavaScript numbers that the code treats as integral scores, counters and
  ids are modelled as Int (or Nat for ids and timestamps).
* JavaScript falsy coercion "x || d" on numbers is jsNum / jsNumOr
  (0, null and undefined are falsy); on strings it is jsStr ("" is
  falsy); "x || null" on optional numbers is jsOrNullInt.
* Math.round(t / n) on integers t, n (n positive) is jsRoundDiv, using
  floor(x + 1/2) which is exactly JavaScript Math.round, including its
  round-toward-plus-infinity behaviour on negative halves.
* Date values are modelled as Nat timestamps supplied as a "now"
  parameter.
* Upstream service behaviour (AssemblyAI transcription, the Mistral and
  OpenAI chat completions) is an explicit input: an Except for calls that
  can reject, and the LLMOutcome type for the result of obtaining and
  JSON-parsing an LLM response.
* JSON response bodies whose key set matters are built as association
  lists of JVal so that presence or absence of a key (for example the
  fallback flag) is observable.
-/

/-- JavaScript coercion for reading an optional numeric JSON field with
the pattern "value || d": absent fields and the falsy number 0 give the
default. -/
def jsNum (o : Option Int) (d : Int) : Int :=
  match o with
  | none => d
  | some v => if v = 0 then d else v

/-- JavaScript "a || b" on two numbers already known to be present: 0 is
falsy and selects b. -/
def jsNumOr (a b : Int) : Int :=
  if a = 0 then b else a

/-- JavaScript coercion for reading an optional string JSON field with
the pattern "value || d": absent fields and the empty string give the
default. -/
def jsStr (o : Option String) (d : String) : String :=
  match o with
  | none => d
  | some s => if s = "" then d else s

/-- JavaScript "value || null" on an optional number, as used by the
MemStorage create methods: 0 becomes null. -/
def jsOrNullInt (o : Option Int) : Option Int :=
  match o with
  | none => none
  | some v => if v = 0 then none else some v

/-- JavaScript truthiness of an optional number, as in
"if (testResultData.userId)": absent and 0 are falsy. -/
def jsTruthyOptInt (o : Option Int) : Bool :=
  match o with
  | none => false
  | some v => v != 0

/-- JavaScript truthiness of an optional string, as in
"if (audioFilePath)" and "if (!transcript)": absent and "" are falsy. -/
def jsTruthyOptStr (o : Option String) : Bool :=
  match o with
  | none => false
  | some s => s != ""

/-- Math.round(t / n) for integers with n positive: floor(t/n + 1/2),
which matches JavaScript Math.round on all inputs. -/
def jsRoundDiv (t n : Int) : Int :=
  Int.fdiv (2 * t + n) (2 * n)

/-- Math.max(0, Math.min(100, x)), the score normalisation of the OpenAI
adapter (part_014 lines 96-100). -/
def clampScore (x : Int) : Int :=
  max 0 (min 100 x)

/-- Array.from(new Set(l)): deduplication preserving first occurrences,
as used for the strengths and improvementAreas merge in routes.ts
lines 633-634. -/
def dedupeList (l : List String) : List String :=
  l.foldl (fun acc x => if acc.contains x then acc else acc ++ [x]) []

/-- A JSON value, rich enough for the response bodies the claims are
about. Arrays of strings are the only arrays the relevant bodies carry. -/
inductive JVal where
  | jstr (s : String)
  | jnum (n : Int)
  | jbool (b : Bool)
  | jarr (l : List String)
  | jobj (fields : List (String × JVal))

/-- DifficultyLevels.BEGINNER from the shared schema (part_009 line 26).
The four constants are lowercase already, so their toLowerCase() in
routes.ts is the identity and the embedding uses them directly. -/
def DifficultyLevels.BEGINNER : String := "beginner"

/-- DifficultyLevels.INTERMEDIATE from the shared schema (part_009 line 27). -/
def DifficultyLevels.INTERMEDIATE : String := "intermediate"

/-- DifficultyLevels.ADVANCED from the shared schema (part_009 line 28). -/
def DifficultyLevels.ADVANCED : String := "advanced"

/-- DifficultyLevels.EXPERT from the shared schema (part_009 line 29). -/
def DifficultyLevels.EXPERT : String := "expert"

/-- PROGRESSION_THRESHOLD from the shared schema (part_009 line 33). -/
def PROGRESSION_THRESHOLD : Int := 80

/-- A TestPrompt, restricted to the fields the route handlers read. -/
structure PromptM where
  difficulty : String
  promptText : String
deriving DecidableEq, Repr

/-- A stored TestResult row (shared schema part_009 lines 102-119,
materialised by MemStorage.createTestResult). -/
structure TestResultM where
  id : Nat
  userId : Option Int
  categoryId : Option Int
  overallScore : Int
  pronunciationScore : Int
  fluencyScore : Int
  vocabularyScore : Int
  grammarScore : Int
  listeningScore : Option Int
  cefrLevel : String
  strengths : List String
  improvements : List String
  recommendations : List String
  feedback : String
  testDuration : Option Int
  createdAt : Nat
deriving DecidableEq, Repr

/-- The raw JSON body of POST /api/submit-test-results, before zod
validation. promptId is the key the client may send that is not part of
insertTestResultSchema. -/
structure RawBody where
  userId : Option Int
  categoryId : Option Int
  promptId : Option Int
  overallScore : Option Int
  pronunciationScore : Option Int
  fluencyScore : Option Int
  vocabularyScore : Option Int
  grammarScore : Option Int
  listeningScore : Option Int
  cefrLevel : Option String
  strengths : Option (List String)
  improvements : Option (List String)
  recommendations : Option (List String)
  feedback : Option String
  testDuration : Option Int
deriving DecidableEq, Repr

/-- The result of insertTestResultSchema.parse: the notNull columns are
required, the nullable ones optional. There is no promptId field: zod
object schemas strip unknown keys. -/
structure InsertTestResultM where
  userId : Option Int
  categoryId : Option Int
  overallScore : Int
  pronunciationScore : Int
  fluencyScore : Int
  vocabularyScore : Int
  grammarScore : Int
  listeningScore : Option Int
  cefrLevel : String
  strengths : Option (List String)
  improvements : Option (List String)
  recommendations : Option (List String)
  feedback : String
  testDuration : Option Int
deriving DecidableEq, Repr

/-- insertTestResultSchema.parse: succeeds when every notNull column is
present, keeps the optional columns as given, and drops the unknown
promptId key. A parse failure corresponds to the ZodError the route
handler catches. -/
def zodParse (b : RawBody) : Option InsertTestResultM :=
  match b.overallScore, b.pronunciationScore, b.fluencyScore,
        b.vocabularyScore, b.grammarScore, b.cefrLevel, b.feedback with
  | some o, some pr, some fl, some vo, some gr, some ce, some fb =>
      some { userId := b.userId, categoryId := b.categoryId,
             overallScore := o, pronunciationScore := pr, fluencyScore := fl,
             vocabularyScore := vo, grammarScore := gr,
             listeningScore := b.listeningScore, cefrLevel := ce,
             strengths := b.strengths, improvements := b.improvements,
             recommendations := b.recommendations, feedback := fb,
             testDuration := b.testDuration }
  | _, _, _, _, _, _, _ => none

/-- The JSON object the Mistral prompt asks the model for (part_013
lines 50-62), as the adapter reads it after JSON.parse: every field may
be absent. -/
structure Assessment where
  overallScore : Option Int
  vocabularyScore : Option Int
  grammarScore : Option Int
  fluencyScore : Option Int
  pronunciationScore : Option Int
  level : Option String
  strengths : Option (List String)
  improvements : Option (List String)
  recommendations : Option (List String)
  feedback : Option String
deriving Repr

/-- Outcome of one Mistral chat.complete call as the adapter observes it:
the call rejected (network or API error, caught by the outer catch), the
content was not a string, the content failed JSON.parse, or it parsed. -/
inductive LLMOutcome where
  | apiError
  | nonString
  | unparsable
  | parsed (a : Assessment)

/-- The fallback TestResult the Mistral analyzeSpokenEnglish returns when
parsing the response fails (part_013 lines 89-106). -/
def mistralParseFallback (now : Nat) : TestResultM :=
  { id := 0, userId := none, categoryId := none,
    overallScore := 60, vocabularyScore := 60, grammarScore := 60,
    fluencyScore := 60, pronunciationScore := 60, listeningScore := none,
    cefrLevel := "B1",
    strengths := ["Attempted to answer the prompt"],
    improvements := ["Work on clarity and structure"],
    recommendations := ["Practice more with similar prompts"],
    feedback := "Please try again with a clearer response.",
    createdAt := now, testDuration := none }

/-- The fallback TestResult the Mistral analyzeSpokenEnglish returns from
its outer catch (part_013 lines 131-148). -/
def mistralErrorFallback (now : Nat) : TestResultM :=
  { id := 0, userId := none, categoryId := none,
    overallScore := 50, vocabularyScore := 50, grammarScore := 50,
    fluencyScore := 50, pronunciationScore := 50, listeningScore := none,
    cefrLevel := "B1",
    strengths := ["Attempted to answer the prompt"],
    improvements := ["Technical issues prevented full assessment"],
    recommendations := ["Try again with a clearer recording"],
    feedback := "There was an error analyzing your response. Please try again.",
    createdAt := now, testDuration := none }

/-- analyzeSpokenEnglish of the Mistral adapter (part_013 lines 18-150):
total in the outcome of the upstream call, formatting a parsed
assessment with "|| 0" defaults and falling back to the constant results
otherwise. -/
def mistralAnalyzeSpokenEnglish (now : Nat) (llm : LLMOutcome) : TestResultM :=
  match llm with
  | .apiError => mistralErrorFallback now
  | .nonString => mistralParseFallback now
  | .unparsable => mistralParseFallback now
  | .parsed a =>
      { id := 0, userId := none, categoryId := none,
        overallScore := jsNum a.overallScore 0,
        vocabularyScore := jsNum a.vocabularyScore 0,
        grammarScore := jsNum a.grammarScore 0,
        fluencyScore := jsNum a.fluencyScore 0,
        pronunciationScore := jsNum a.pronunciationScore 0,
        listeningScore := none,
        cefrLevel := jsStr a.level "B1",
        strengths := a.strengths.getD [],
        improvements := a.improvements.getD [],
        recommendations := a.recommendations.getD [],
        feedback := jsStr a.feedback "",
        createdAt := now, testDuration := none }

/-- The parse-failure fallback of the Mistral analyzeImageDescription
(part_013 lines 225-242). -/
def mistralImageParseFallback (now : Nat) : TestResultM :=
  { id := 0, userId := none, categoryId := none,
    overallScore := 60, vocabularyScore := 60, grammarScore := 60,
    fluencyScore := 60, pronunciationScore := 60, listeningScore := none,
    cefrLevel := "B1",
    strengths := ["Attempted to describe the image"],
    improvements := ["Work on more detailed descriptions"],
    recommendations := ["Practice describing different types of images"],
    feedback := "Please try again with a more detailed description.",
    createdAt := now, testDuration := none }

/-- The outer-catch fallback of the Mistral analyzeImageDescription
(part_013 lines 267-284). -/
def mistralImageErrorFallback (now : Nat) : TestResultM :=
  { id := 0, userId := none, categoryId := none,
    overallScore := 50, vocabularyScore := 50, grammarScore := 50,
    fluencyScore := 50, pronunciationScore := 50, listeningScore := none,
    cefrLevel := "B1",
    strengths := ["Attempted to describe the image"],
    improvements := ["Technical issues prevented full assessment"],
    recommendations := ["Try again with a clearer recording"],
    feedback := "There was an error analyzing your response. Please try again.",
    createdAt := now, testDuration := none }

/-- analyzeImageDescription of the Mistral adapter (part_013 lines
158-286): identical control flow to analyzeSpokenEnglish with its own
fallback texts. -/
def mistralAnalyzeImageDescription (now : Nat) (llm : LLMOutcome) : TestResultM :=
  match llm with
  | .apiError => mistralImageErrorFallback now
  | .nonString => mistralImageParseFallback now
  | .unparsable => mistralImageParseFallback now
  | .parsed a =>
      { id := 0, userId := none, categoryId := none,
        overallScore := jsNum a.overallScore 0,
        vocabularyScore := jsNum a.vocabularyScore 0,
        grammarScore := jsNum a.grammarScore 0,
        fluencyScore := jsNum a.fluencyScore 0,
        pronunciationScore := jsNum a.pronunciationScore 0,
        listeningScore := none,
        cefrLevel := jsStr a.level "B1",
        strengths := a.strengths.getD [],
        improvements := a.improvements.getD [],
        recommendations := a.recommendations.getD [],
        feedback := jsStr a.feedback "",
        createdAt := now, testDuration := none }

/-- The tuple shape analyzeSpeechWithLeMUR returns to the routes. -/
structure LemurEval where
  overall : Int
  grammar : Int
  vocabulary : Int
  fluency : Int
  pronunciation : Int
  strengths : List String
  weaknesses : List String
  feedback : String
deriving DecidableEq, Repr

/-- analyzeSpeechWithLeMUR of the Mistral adapter (part_013 lines
291-344): transcription failure is swallowed into a fallback transcript
that only feeds the LLM prompt, then analyzeSpokenEnglish formats the
outcome; every branch returns, so the function never rejects. -/
def mistralAnalyzeSpeechWithLeMUR (now : Nat)
    (_transcription : Except String (Option String)) (llm : LLMOutcome) :
    LemurEval :=
  let analysis := mistralAnalyzeSpokenEnglish now llm
  { overall := analysis.overallScore,
    grammar := analysis.grammarScore,
    vocabulary := analysis.vocabularyScore,
    fluency := jsNumOr analysis.fluencyScore 0,
    pronunciation := jsNumOr analysis.pronunciationScore 0,
    strengths := analysis.strengths,
    weaknesses := analysis.improvements,
    feedback := analysis.feedback }

/-- The JSON object the OpenAI prompt asks for (part_014 lines 60-73),
restricted as the adapter reads it with numeric scores present; the
optional listeningScore and cefrLevel keep their JavaScript coercions. -/
structure OAIAssessment where
  overallScore : Int
  pronunciationScore : Int
  fluencyScore : Int
  vocabularyScore : Int
  grammarScore : Int
  listeningScore : Option Int
  cefrLevel : Option String
  strengths : List String
  improvements : List String
  recommendations : List String
  feedback : String
deriving Repr

/-- The normalised result of the OpenAI analyzeSpokenEnglish. -/
structure OAIResult where
  overallScore : Int
  pronunciationScore : Int
  fluencyScore : Int
  vocabularyScore : Int
  grammarScore : Int
  listeningScore : Option Int
  cefrLevel : String
  strengths : List String
  improvements : List String
  recommendations : List String
  feedback : String
deriving DecidableEq, Repr

/-- analyzeSpokenEnglish of the OpenAI adapter (part_014 lines 29-112),
success path: every score is pushed through Math.max(0, Math.min(100,
Math.round x)); listeningScore is clamped only when truthy. Math.round
on the integer-modelled scores is the identity. -/
def openaiAnalyzeSpokenEnglish (r : OAIAssessment) : OAIResult :=
  { overallScore := clampScore r.overallScore,
    pronunciationScore := clampScore r.pronunciationScore,
    fluencyScore := clampScore r.fluencyScore,
    vocabularyScore := clampScore r.vocabularyScore,
    grammarScore := clampScore r.grammarScore,
    listeningScore :=
      match r.listeningScore with
      | none => none
      | some v => if v = 0 then none else some (clampScore v),
    cefrLevel := jsStr r.cefrLevel "B1",
    strengths := r.strengths.take 3,
    improvements := r.improvements.take 3,
    recommendations := r.recommendations.take 3,
    feedback := r.feedback }

/-- The extra scores of the OpenAI analyzeImageDescription. -/
structure OAIImageResult where
  overallScore : Int
  pronunciationScore : Int
  fluencyScore : Int
  vocabularyScore : Int
  grammarScore : Int
  imageComprehension : Int
  detailLevel : Int
  cefrLevel : String
deriving DecidableEq, Repr

/-- analyzeImageDescription of the OpenAI adapter (part_014 lines
146-230), success path, restricted to its score fields: all are
clamped. -/
def openaiAnalyzeImageDescription (r : OAIAssessment)
    (imageComprehension detailLevel : Int) : OAIImageResult :=
  { overallScore := clampScore r.overallScore,
    pronunciationScore := clampScore r.pronunciationScore,
    fluencyScore := clampScore r.fluencyScore,
    vocabularyScore := clampScore r.vocabularyScore,
    grammarScore := clampScore r.grammarScore,
    imageComprehension := clampScore imageComprehension,
    detailLevel := clampScore detailLevel,
    cefrLevel := jsStr r.cefrLevel "B1" }

/-- The test-result portion of MemStorage: the keyed map with its
auto-increment counter. Insertion prepends, and lookup takes the first
match, which agrees with Map.set overwriting the key. -/
structure ResultStore where
  testResults : List (Nat × TestResultM)
  resultIdCounter : Nat
deriving DecidableEq, Repr

/-- An empty MemStorage result map, counters starting at 1. -/
def emptyResultStore : ResultStore := { testResults := [], resultIdCounter := 1 }

/-- MemStorage.createTestResult (storage.ts lines 224-247): assigns the
next id, applies the "|| null" and "|| []" defaults, copies the scores
verbatim and stamps createdAt. -/
def createTestResultS (s : ResultStore) (ins : InsertTestResultM) (now : Nat) :
    TestResultM × ResultStore :=
  let id := s.resultIdCounter
  let r : TestResultM :=
    { id := id,
      userId := jsOrNullInt ins.userId,
      categoryId := jsOrNullInt ins.categoryId,
      overallScore := ins.overallScore,
      pronunciationScore := ins.pronunciationScore,
      fluencyScore := ins.fluencyScore,
      vocabularyScore := ins.vocabularyScore,
      grammarScore := ins.grammarScore,
      listeningScore := jsOrNullInt ins.listeningScore,
      cefrLevel := ins.cefrLevel,
      strengths := ins.strengths.getD [],
      improvements := ins.improvements.getD [],
      recommendations := ins.recommendations.getD [],
      feedback := ins.feedback,
      testDuration := jsOrNullInt ins.testDuration,
      createdAt := now }
  (r, { testResults := (id, r) :: s.testResults, resultIdCounter := id + 1 })

/-- MemStorage.getTestResult (storage.ts lines 199-201). -/
def getTestResultS (s : ResultStore) (id : Nat) : Option TestResultM :=
  s.testResults.lookup id

/-- A stored UserProgress row (shared schema part_009 lines 151-166). -/
structure UserProgressM where
  id : Nat
  userId : Option Int
  testsCompleted : Int
  averageScore : Int
  currentCefrLevel : String
  strengths : List String
  improvementAreas : List String
  lastTestDate : Option Nat
  totalPracticeTime : Int
  highestDifficultyUnlocked : String
  beginnerScore : Int
  intermediateScore : Int
  advancedScore : Int
  expertScore : Int
deriving DecidableEq, Repr

/-- The argument both route call sites pass to createUserProgress: every
field is supplied explicitly. -/
structure InsertUserProgressM where
  userId : Int
  testsCompleted : Int
  averageScore : Int
  currentCefrLevel : String
  strengths : List String
  improvementAreas : List String
  lastTestDate : Option Nat
  totalPracticeTime : Int
  highestDifficultyUnlocked : String
  beginnerScore : Int
  intermediateScore : Int
  advancedScore : Int
  expertScore : Int
deriving DecidableEq, Repr

/-- The record MemStorage.createUserProgress builds (storage.ts lines
299-315): "userId || null" turns 0 into null, "currentCefrLevel || A2"
turns "" into A2; the numeric "|| 0" defaults are the identity on the
integers the routes pass, and lastTestDate is a Date, always truthy. -/
def storageCreateUserProgress (ins : InsertUserProgressM) (id : Nat) :
    UserProgressM :=
  { id := id,
    userId := if ins.userId = 0 then none else some ins.userId,
    testsCompleted := ins.testsCompleted,
    averageScore := ins.averageScore,
    currentCefrLevel := if ins.currentCefrLevel = "" then "A2" else ins.currentCefrLevel,
    strengths := ins.strengths,
    improvementAreas := ins.improvementAreas,
    lastTestDate := ins.lastTestDate,
    totalPracticeTime := ins.totalPracticeTime,
    highestDifficultyUnlocked := ins.highestDifficultyUnlocked,
    beginnerScore := ins.beginnerScore,
    intermediateScore := ins.intermediateScore,
    advancedScore := ins.advancedScore,
    expertScore := ins.expertScore }

/-- The progress portion of MemStorage: the keyed map and counter.
Map.set appends in insertion order, matching the JavaScript iteration
order of MemStorage.getUserProgress. -/
structure ProgressStore where
  records : List (Nat × UserProgressM)
  progressIdCounter : Nat
deriving DecidableEq, Repr

/-- An empty MemStorage progress map. -/
def emptyProgressStore : ProgressStore := { records := [], progressIdCounter := 1 }

/-- MemStorage.getUserProgress (storage.ts lines 285-288): first record
whose (nullable) userId strictly equals the requested number. -/
def findProgress (s : ProgressStore) (uid : Int) : Option UserProgressM :=
  (s.records.find? (fun kv => kv.2.userId == some uid)).map Prod.snd

/-- MemStorage.createUserProgress insertion (storage.ts lines 299-315). -/
def createUserProgressS (s : ProgressStore) (ins : InsertUserProgressM) :
    UserProgressM × ProgressStore :=
  let id := s.progressIdCounter
  let p := storageCreateUserProgress ins id
  (p, { records := s.records ++ [(id, p)], progressIdCounter := id + 1 })

/-- The default UserProgress insert built by GET /api/user-progress
(routes.ts lines 352-366) and, with the same shape, by the submit-test
handler; the difficulty starts at beginner and every tier score at 0. -/
def defaultInsertProgress (uid : Int) (now : Nat) : InsertUserProgressM :=
  { userId := uid, testsCompleted := 0, averageScore := 0,
    currentCefrLevel := "A2", strengths := [], improvementAreas := [],
    lastTestDate := some now, totalPracticeTime := 0,
    highestDifficultyUnlocked := DifficultyLevels.BEGINNER,
    beginnerScore := 0, intermediateScore := 0, advancedScore := 0,
    expertScore := 0 }

/-- Outcome of GET /api/user-progress/:userId as the claims observe it:
the HTTP status, the progress record the JSON body is projected from,
and the storage state after the request. -/
structure UPResult where
  status : Nat
  progress : Option UserProgressM
  store : ProgressStore
deriving DecidableEq, Repr

/-- GET /api/user-progress/:userId (routes.ts lines 340-390): a
non-numeric id is 400; a missing record is created on the fly with the
beginner defaults; the response body is built from the record. -/
def userProgressHandler (s : ProgressStore) (uidNum : Option Int) (now : Nat) :
    UPResult :=
  match uidNum with
  | none => { status := 400, progress := none, store := s }
  | some uid =>
      match findProgress s uid with
      | some p => { status := 200, progress := some p, store := s }
      | none =>
          let pair := createUserProgressS s (defaultInsertProgress uid now)
          { status := 200, progress := some pair.1, store := pair.2 }

/-- The insert POST /api/submit-test-results passes to
createUserProgress when no record exists yet (routes.ts lines 588-602). -/
def submitInsertProgress (d : InsertTestResultM) (now : Nat) :
    InsertUserProgressM :=
  { userId := d.userId.getD 0, testsCompleted := 1,
    averageScore := d.overallScore, currentCefrLevel := d.cefrLevel,
    strengths := d.strengths.getD [], improvementAreas := d.improvements.getD [],
    lastTestDate := some now, totalPracticeTime := 0,
    highestDifficultyUnlocked := DifficultyLevels.BEGINNER,
    beginnerScore := 0, intermediateScore := 0, advancedScore := 0,
    expertScore := 0 }

/-- The update POST /api/submit-test-results applies to an existing
UserProgress record (routes.ts lines 604-667), merged as
updateUserProgress merges the update object into the stored record. The
difficulty argument is the lowercased prompt difficulty the handler
computed; each branch keeps the best tier score and advances
highestDifficultyUnlocked one step when the threshold is met at the
currently unlocked tier. -/
def applyDifficultyUpdate (difficulty : String) (p : UserProgressM)
    (d : InsertTestResultM) (now : Nat) : UserProgressM :=
  let testsCompleted := p.testsCompleted + 1
  let totalScore := p.averageScore * p.testsCompleted + d.overallScore
  let newAverageScore := jsRoundDiv totalScore testsCompleted
  let base : UserProgressM :=
    { p with
      testsCompleted := testsCompleted,
      averageScore := newAverageScore,
      currentCefrLevel := d.cefrLevel,
      lastTestDate := some now,
      strengths := dedupeList (p.strengths ++ d.strengths.getD []),
      improvementAreas := dedupeList (p.improvementAreas ++ d.improvements.getD []) }
  if difficulty = DifficultyLevels.BEGINNER then
    let scored := { base with beginnerScore := max p.beginnerScore d.overallScore }
    if d.overallScore ≥ PROGRESSION_THRESHOLD ∧
        p.highestDifficultyUnlocked = DifficultyLevels.BEGINNER then
      { scored with highestDifficultyUnlocked := DifficultyLevels.INTERMEDIATE }
    else scored
  else if difficulty = DifficultyLevels.INTERMEDIATE then
    let scored := { base with intermediateScore := max p.intermediateScore d.overallScore }
    if d.overallScore ≥ PROGRESSION_THRESHOLD ∧
        p.highestDifficultyUnlocked = DifficultyLevels.INTERMEDIATE then
      { scored with highestDifficultyUnlocked := DifficultyLevels.ADVANCED }
    else scored
  else if difficulty = DifficultyLevels.ADVANCED then
    let scored := { base with advancedScore := max p.advancedScore d.overallScore }
    if d.overallScore ≥ PROGRESSION_THRESHOLD ∧
        p.highestDifficultyUnlocked = DifficultyLevels.ADVANCED then
      { scored with highestDifficultyUnlocked := DifficultyLevels.EXPERT }
    else scored
  else if difficulty = DifficultyLevels.EXPERT then
    { base with expertScore := max p.expertScore d.overallScore }
  else base

/-- Prompt lookup by id, MemStorage.getPrompt over the prompt map. -/
def lookupPrompt (prompts : List (Int × PromptM)) (pid : Int) : Option PromptM :=
  prompts.lookup pid

/-- The progress side effect of POST /api/submit-test-results on the
submitting user's record (routes.ts lines 581-668), given the parsed
body. The handler reads promptId with "if (promptId in testResultData)",
but insertTestResultSchema.parse strips unknown keys, so promptId stays
0, the prompt lookup is skipped and the difficulty is always the
beginner constant. -/
def applySubmitProgress (prompts : List (Int × PromptM))
    (d : InsertTestResultM) (now : Nat) (p? : Option UserProgressM) :
    Option UserProgressM :=
  if jsTruthyOptInt d.userId then
    match p? with
    | none => some (storageCreateUserProgress (submitInsertProgress d now) 0)
    | some p =>
        let promptId : Int := 0
        let prompt := if promptId ≠ 0 then lookupPrompt prompts promptId else none
        let difficulty :=
          match prompt with
          | some pr => pr.difficulty.toLower
          | none => DifficultyLevels.BEGINNER
        some (applyDifficultyUpdate difficulty p d now)
  else p?

/-- Outcome of POST /api/submit-test-results: status, the stored result
echoed in the body, and both storage states. -/
structure STRout where
  status : Nat
  result : Option TestResultM
  results : ResultStore
  progress : Option UserProgressM
deriving Repr

/-- POST /api/submit-test-results (routes.ts lines 575-680): a zod
failure is caught by the generic handler and becomes 500; otherwise the
result is stored, the progress record updated (its own failures are
swallowed) and the stored result returned. -/
def submitTestResultsHandler (prompts : List (Int × PromptM))
    (rs : ResultStore) (p? : Option UserProgressM) (raw : RawBody)
    (now : Nat) : STRout :=
  match zodParse raw with
  | none => { status := 500, result := none, results := rs, progress := p? }
  | some d =>
      let pair := createTestResultS rs d now
      { status := 200, result := some pair.1, results := pair.2,
        progress := applySubmitProgress prompts d now p? }

/-- One route-handler operation that can touch a user's UserProgress
record: the read-repair GET and the submit-test-results POST. -/
inductive ProgressOp where
  | getOp (uid : Int) (now : Nat)
  | submitOp (prompts : List (Int × PromptM)) (raw : RawBody) (now : Nat)

/-- The effect of one operation on the user's record, matching the two
handlers above. -/
def applyProgressOp (p? : Option UserProgressM) (op : ProgressOp) :
    Option UserProgressM :=
  match op with
  | .getOp uid now =>
      match p? with
      | some p => some p
      | none => some (storageCreateUserProgress (defaultInsertProgress uid now) 0)
  | .submitOp prompts raw now =>
      match zodParse raw with
      | none => p?
      | some d => applySubmitProgress prompts d now p?

/-- Position of a difficulty string in the beginner-to-expert order;
anything unrecognised sits at the bottom. -/
def rankDifficulty (s : String) : Nat :=
  if s = DifficultyLevels.INTERMEDIATE then 1
  else if s = DifficultyLevels.ADVANCED then 2
  else if s = DifficultyLevels.EXPERT then 3
  else 0

/-- Rank of an optional record: a missing record counts as the bottom. -/
def optRank (p? : Option UserProgressM) : Nat :=
  match p? with
  | none => 0
  | some p => rankDifficulty p.highestDifficultyUnlocked

/-- The fixed recommendations list the routes attach to every direct
analysis response. -/
def recommendedPracticeList : List String :=
  ["Practice speaking regularly", "Listen to native speakers",
   "Join language exchange programs"]

/-- The evaluation object of the analyze branch of POST /api/submit-audio
(routes.ts lines 429-445). The LemurEval tuple has no phrase field, so
"evaluation.phrase || ..." always takes the computed average; fluency
and pronunciation fall back to each other when one is 0. -/
def evaluationJson (e : LemurEval) : List (String × JVal) :=
  [("overallScore", JVal.jnum e.overall),
   ("vocabularyScore", JVal.jnum e.vocabulary),
   ("grammarScore", JVal.jnum e.grammar),
   ("phraseScore", JVal.jnum (jsRoundDiv (e.vocabulary + e.grammar) 2)),
   ("fluencyScore", JVal.jnum (jsNumOr e.fluency e.pronunciation)),
   ("pronunciationScore", JVal.jnum (jsNumOr e.pronunciation e.fluency)),
   ("strengths", JVal.jarr e.strengths),
   ("improvements", JVal.jarr e.weaknesses),
   ("recommendations", JVal.jarr recommendedPracticeList),
   ("feedback", JVal.jstr e.feedback)]

/-- The constant fallback evaluation of the submit-audio analyze catch
branch (routes.ts lines 452-463). -/
def fallbackEvaluationJson : List (String × JVal) :=
  [("overallScore", JVal.jnum 75),
   ("vocabularyScore", JVal.jnum 70),
   ("grammarScore", JVal.jnum 80),
   ("phraseScore", JVal.jnum 75),
   ("fluencyScore", JVal.jnum 75),
   ("pronunciationScore", JVal.jnum 75),
   ("strengths", JVal.jarr ["Good use of vocabulary", "Clear sentence structure",
                            "Effective communication of ideas"]),
   ("improvements", JVal.jarr ["Work on fluency", "Expand advanced vocabulary",
                               "Practice complex grammar structures"]),
   ("recommendations", JVal.jarr recommendedPracticeList),
   ("feedback", JVal.jstr "Your English shows good foundational skills. Continue practicing to improve fluency and expand your vocabulary.")]

/-- A POST /api/submit-audio request after multer ran: the stored file
path if a file was uploaded, Number(req.body.promptId) with none for
NaN, and the analyze flag string. -/
structure SubmitAudioReq where
  file : Option String
  promptIdNum : Option Int
  analyze : String
deriving DecidableEq, Repr

/-- Outcome of POST /api/submit-audio: status, JSON body, and whether the
uploaded temporary file was deleted by the finally block. -/
structure HttpOut where
  status : Nat
  body : List (String × JVal)
  fileDeleted : Bool

/-- POST /api/submit-audio (routes.ts lines 393-492). The early
validation returns (no file, NaN promptId, unknown prompt) happen before
the inner try, so the finally cleanup does not run on them; every path
that reaches transcription passes through the finally and deletes the
file. The transcription call and the analysis call are inputs: an
Except.error models the promise rejecting. -/
def submitAudioHandler (req : SubmitAudioReq)
    (prompts : List (Int × PromptM))
    (transcription : Except String (Option String))
    (analysis : Except String LemurEval) : HttpOut :=
  match req.file with
  | none =>
      { status := 400, body := [("message", JVal.jstr "No audio file uploaded")],
        fileDeleted := false }
  | some _ =>
      match req.promptIdNum with
      | none =>
          { status := 400, body := [("message", JVal.jstr "Invalid prompt ID")],
            fileDeleted := false }
      | some pid =>
          match lookupPrompt prompts pid with
          | none =>
              { status := 404, body := [("message", JVal.jstr "Prompt not found")],
                fileDeleted := false }
          | some _ =>
              match transcription with
              | .error e =>
                  { status := 500,
                    body := [("message", JVal.jstr ("Failed to process audio: " ++ e))],
                    fileDeleted := true }
              | .ok t =>
                  let transcript := t.getD ""
                  if req.analyze = "true" then
                    match analysis with
                    | .ok ev =>
                        { status := 200,
                          body := [("transcript", JVal.jstr transcript),
                                   ("evaluation", JVal.jobj (evaluationJson ev))],
                          fileDeleted := true }
                    | .error m =>
                        { status := 200,
                          body := [("transcript", JVal.jstr transcript),
                                   ("evaluation", JVal.jobj fallbackEvaluationJson),
                                   ("fallback", JVal.jbool true),
                                   ("error", JVal.jstr m)],
                          fileDeleted := true }
                  else
                    { status := 200,
                      body := [("transcript", JVal.jstr transcript)],
                      fileDeleted := true }

/-- POST /api/submit-audio as wired in routes.ts line 257: the analysis
is the Mistral analyzeSpeechWithLeMUR, which always resolves, so the
analysis argument is always Except.ok. -/
def mistralSubmitAudio (now : Nat) (req : SubmitAudioReq)
    (prompts : List (Int × PromptM))
    (transcription : Except String (Option String)) (llm : LLMOutcome) :
    HttpOut :=
  submitAudioHandler req prompts transcription
    (Except.ok (mistralAnalyzeSpeechWithLeMUR now transcription llm))

/-- The evaluation object of POST /api/evaluate on the direct-analysis
path (routes.ts lines 509-521): here phraseScore is always the computed
average. -/
def evaluateJson (e : LemurEval) : List (String × JVal) :=
  [("overallScore", JVal.jnum e.overall),
   ("vocabularyScore", JVal.jnum e.vocabulary),
   ("grammarScore", JVal.jnum e.grammar),
   ("phraseScore", JVal.jnum (jsRoundDiv (e.vocabulary + e.grammar) 2)),
   ("fluencyScore", JVal.jnum (jsNumOr e.fluency e.pronunciation)),
   ("pronunciationScore", JVal.jnum (jsNumOr e.pronunciation e.fluency)),
   ("strengths", JVal.jarr e.strengths),
   ("improvements", JVal.jarr e.weaknesses),
   ("recommendations", JVal.jarr recommendedPracticeList),
   ("feedback", JVal.jstr e.feedback)]

/-- The constant simulated scores of POST /api/evaluate on the
transcript-only path (routes.ts lines 554-565). -/
def evaluateSimulatedJson : List (String × JVal) :=
  [("overallScore", JVal.jnum 75),
   ("vocabularyScore", JVal.jnum 70),
   ("grammarScore", JVal.jnum 80),
   ("phraseScore", JVal.jnum 75),
   ("fluencyScore", JVal.jnum 75),
   ("pronunciationScore", JVal.jnum 75),
   ("strengths", JVal.jarr ["Good use of vocabulary", "Clear sentence structure",
                            "Effective communication of ideas"]),
   ("improvements", JVal.jarr ["Work on fluency", "Expand advanced vocabulary",
                               "Practice complex grammar structures"]),
   ("recommendations", JVal.jarr recommendedPracticeList),
   ("feedback", JVal.jstr "Your English shows good foundational skills. Continue practicing to improve fluency and expand your vocabulary.")]

/-- Outcome of POST /api/evaluate: status and JSON body. -/
structure EvalOut where
  status : Nat
  body : List (String × JVal)

/-- POST /api/evaluate (routes.ts lines 495-572). Number(promptId) of a
non-numeric id is NaN and the prompt lookup misses, so the handler
answers 404 rather than 400 in that case; a missing or empty transcript
with no audio path is 400; the analysis fallback attaches the fallback
flag when the analysis call rejects. -/
def evaluateHandler (prompts : List (Int × PromptM))
    (transcript : Option String) (pidNum : Option Int)
    (audioFilePath : Option String)
    (analysis : Except String LemurEval) : EvalOut :=
  let prompt :=
    match pidNum with
    | none => none
    | some pid => lookupPrompt prompts pid
  match prompt with
  | none => { status := 404, body := [("message", JVal.jstr "Prompt not found")] }
  | some _ =>
      if jsTruthyOptStr audioFilePath then
        match analysis with
        | .ok e => { status := 200, body := evaluateJson e }
        | .error m =>
            { status := 200,
              body := fallbackEvaluationJson ++
                      [("fallback", JVal.jbool true), ("error", JVal.jstr m)] }
      else if jsTruthyOptStr transcript then
        { status := 200, body := evaluateSimulatedJson }
      else
        { status := 400,
          body := [("message", JVal.jstr "Either transcript or audio file path is required")] }

/-- A score lying in the 0 to 100 band the spec requires. -/
def scoreInRange (x : Int) : Prop := 0 ≤ x ∧ x ≤ 100

instance (x : Int) : Decidable (scoreInRange x) :=
  inferInstanceAs (Decidable (0 ≤ x ∧ x ≤ 100))

/-- A small prompt table as the seeding routine of routes.ts would create it: one
beginner and one intermediate prompt. -/
def demoPrompts : List (Int × PromptM) :=
  [(1, { difficulty := "beginner",
         promptText := "Describe a memorable event from your childhood." }),
   (3, { difficulty := "intermediate",
         promptText := "Talk about a challenging experience you had." })]

/-- A well-formed LemurEval tuple for exercising the handlers. -/
def demoLemur : LemurEval :=
  { overall := 81, grammar := 82, vocabulary := 78, fluency := 85,
    pronunciation := 80, strengths := ["Clear ideas"],
    weaknesses := ["Verb tenses"], feedback := "Solid B2 response." }

/-- A well-formed parsed Mistral assessment. -/
def demoAssessment : Assessment :=
  { overallScore := some 72, vocabularyScore := some 74,
    grammarScore := some 70, fluencyScore := some 68,
    pronunciationScore := some 71, level := some "B1",
    strengths := some ["Good vocabulary"],
    improvements := some ["Grammar slips"],
    recommendations := some ["Practice daily"],
    feedback := some "A solid attempt." }

/-- An OpenAI assessment whose upstream scores stray outside 0 to 100. -/
def demoOAI : OAIAssessment :=
  { overallScore := 150, pronunciationScore := 97, fluencyScore := 88,
    vocabularyScore := 76, grammarScore := 65, listeningScore := some 120,
    cefrLevel := some "C1",
    strengths := ["range", "accuracy", "tone", "pace"],
    improvements := ["stress"], recommendations := ["shadowing"],
    feedback := "Strong." }

/-- A submit-test-results body naming an intermediate prompt: promptId 3
is sent alongside the schema fields. -/
def demoRawC2 : RawBody :=
  { userId := some 1, categoryId := none, promptId := some 3,
    overallScore := some 85, pronunciationScore := some 84,
    fluencyScore := some 83, vocabularyScore := some 86,
    grammarScore := some 87, listeningScore := none,
    cefrLevel := some "B1", strengths := some [],
    improvements := some [], recommendations := some [],
    feedback := some "Good improvement.", testDuration := none }

/-- The submitting user's progress, currently at the intermediate tier. -/
def demoProgressC2 : UserProgressM :=
  { id := 1, userId := some 1, testsCompleted := 2, averageScore := 70,
    currentCefrLevel := "B1", strengths := [], improvementAreas := [],
    lastTestDate := none, totalPracticeTime := 0,
    highestDifficultyUnlocked := "intermediate",
    beginnerScore := 60, intermediateScore := 70, advancedScore := 0,
    expertScore := 0 }

/-- The submit-test-results request of the progression scenario: an 85 at
the user's currently highest unlocked (intermediate) tier. -/
def strC2out : STRout :=
  submitTestResultsHandler demoPrompts emptyResultStore (some demoProgressC2)
    demoRawC2 9

/-- A body failing insertTestResultSchema: every required column absent. -/
def demoRawBad : RawBody :=
  { userId := none, categoryId := none, promptId := none,
    overallScore := none, pronunciationScore := none, fluencyScore := none,
    vocabularyScore := none, grammarScore := none, listeningScore := none,
    cefrLevel := none, strengths := none, improvements := none,
    recommendations := none, feedback := none, testDuration := none }

/-- A fully populated parsed submit-test-results body with no falsy
optional fields. -/
def demoInsFull : InsertTestResultM :=
  { userId := some 7, categoryId := some 2, overallScore := 85,
    pronunciationScore := 80, fluencyScore := 78, vocabularyScore := 82,
    grammarScore := 88, listeningScore := some 88, cefrLevel := "B2",
    strengths := some ["Vocabulary range"], improvements := some ["Pacing"],
    recommendations := some ["Daily practice"], feedback := "Nice work.",
    testDuration := some 120 }

/-- A valid parsed body whose optional listeningScore is the falsy 0. -/
def demoInsListeningZero : InsertTestResultM :=
  { userId := some 7, categoryId := none, overallScore := 64,
    pronunciationScore := 61, fluencyScore := 66, vocabularyScore := 63,
    grammarScore := 67, listeningScore := some 0, cefrLevel := "B1",
    strengths := none, improvements := none, recommendations := none,
    feedback := "Keep going.", testDuration := none }

/-- First GET /api/user-progress/0 against an empty store. -/
def upFirst : UPResult := userProgressHandler emptyProgressStore (some 0) 5

/-- The identical second GET, on the state the first one left. -/
def upSecond : UPResult := userProgressHandler upFirst.store (some 0) 6

/-- A progress record already at the terminal expert tier. -/
def expertProgressDemo : UserProgressM :=
  { id := 1, userId := some 4, testsCompleted := 9, averageScore := 88,
    currentCefrLevel := "C1", strengths := [], improvementAreas := [],
    lastTestDate := none, totalPracticeTime := 0,
    highestDifficultyUnlocked := "expert",
    beginnerScore := 91, intermediateScore := 88, advancedScore := 85,
    expertScore := 82 }

/-- A valid analyze request whose Mistral response fails JSON.parse. -/
def cexMalformedOut : HttpOut :=
  mistralSubmitAudio 0 { file := some "clip.webm", promptIdNum := some 1, analyze := "true" }
    demoPrompts (Except.ok (some "hello there")) LLMOutcome.unparsable

/-- A request that uploaded a file but carries a non-numeric promptId. -/
def cexBadPromptIdOut : HttpOut :=
  submitAudioHandler { file := some "clip.webm", promptIdNum := none, analyze := "true" }
    demoPrompts (Except.ok (some "hi")) (Except.ok demoLemur)

/-- A valid analyze request whose transcription came back with null
text, so the route-level transcript is the empty string. -/
def cexEmptyTranscriptOut : HttpOut :=
  mistralSubmitAudio 0 { file := some "clip.webm", promptIdNum := some 1, analyze := "true" }
    demoPrompts (Except.ok none) (LLMOutcome.parsed demoAssessment)

lemma clampScore_range (x : Int) : scoreInRange (clampScore x) := by
  unfold clampScore scoreInRange
  constructor
  · exact le_max_left 0 _
  · exact max_le (by norm_num) (min_le_left 100 x)

lemma find?_append_of_none {α : Type} (p : α → Bool) (l1 l2 : List α)
    (h : l1.find? p = none) : (l1 ++ l2).find? p = l2.find? p := by
  induction l1 with
  | nil => simp
  | cons a l ih =>
      cases hpa : p a with
      | true =>
          rw [List.find?_cons_of_pos _ hpa] at h
          exact absurd h (by simp)
      | false =>
          rw [List.find?_cons_of_neg _ (by simp [hpa])] at h
          rw [List.cons_append, List.find?_cons_of_neg _ (by simp [hpa])]
          exact ih h

lemma rank_applyDifficultyUpdate_ge (difficulty : String) (p : UserProgressM)
    (d : InsertTestResultM) (now : Nat) :
    rankDifficulty p.highestDifficultyUnlocked ≤
      rankDifficulty (applyDifficultyUpdate difficulty p d now).highestDifficultyUnlocked := by
  simp only [applyDifficultyUpdate]
  split_ifs with h1 h2 h3 h4 h5 h6 h7
  · rw [h2.2]
    show rankDifficulty DifficultyLevels.BEGINNER ≤
      rankDifficulty DifficultyLevels.INTERMEDIATE
    decide
  · exact le_rfl
  · rw [h4.2]
    show rankDifficulty DifficultyLevels.INTERMEDIATE ≤
      rankDifficulty DifficultyLevels.ADVANCED
    decide
  · exact le_rfl
  · rw [h6.2]
    show rankDifficulty DifficultyLevels.ADVANCED ≤
      rankDifficulty DifficultyLevels.EXPERT
    decide
  · exact le_rfl
  · exact le_rfl
  · exact le_rfl

lemma applyDifficultyUpdate_expert (difficulty : String) (p : UserProgressM)
    (d : InsertTestResultM) (now : Nat)
    (h : p.highestDifficultyUnlocked = DifficultyLevels.EXPERT) :
    (applyDifficultyUpdate difficulty p d now).highestDifficultyUnlocked =
      DifficultyLevels.EXPERT := by
  simp only [applyDifficultyUpdate]
  split_ifs with h1 h2 h3 h4 h5 h6 h7
  · exact absurd (h.symm.trans h2.2) (by decide)
  · exact h
  · exact absurd (h.symm.trans h4.2) (by decide)
  · exact h
  · exact absurd (h.symm.trans h6.2) (by decide)
  · exact h
  · exact h
  · exact h

lemma optRank_applyProgressOp_ge (p? : Option UserProgressM) (op : ProgressOp) :
    optRank p? ≤ optRank (applyProgressOp p? op) := by
  cases op with
  | getOp uid now =>
      cases p? with
      | none => exact Nat.zero_le _
      | some p => exact le_rfl
  | submitOp prompts raw now =>
      cases hz : zodParse raw with
      | none => simp [applyProgressOp, hz]
      | some d =>
          simp only [applyProgressOp, hz]
          by_cases ht : jsTruthyOptInt d.userId = true
          · cases p? with
            | none =>
                simp [applySubmitProgress, ht]
                exact Nat.zero_le _
            | some p =>
                simp only [applySubmitProgress, ht, if_pos]
                simpa [optRank] using
                  rank_applyDifficultyUpdate_ge DifficultyLevels.BEGINNER p d now
          · simp [applySubmitProgress, ht]

lemma applyProgressOp_expert (p? : Option UserProgressM) (op : ProgressOp)
    (p : UserProgressM) (hs : p? = some p)
    (h : p.highestDifficultyUnlocked = DifficultyLevels.EXPERT) :
    ∃ q, applyProgressOp p? op = some q ∧
      q.highestDifficultyUnlocked = DifficultyLevels.EXPERT := by
  subst hs
  cases op with
  | getOp uid now => exact ⟨p, rfl, h⟩
  | submitOp prompts raw now =>
      cases hz : zodParse raw with
      | none => exact ⟨p, by simp [applyProgressOp, hz], h⟩
      | some d =>
          by_cases ht : jsTruthyOptInt d.userId = true
          · refine ⟨applyDifficultyUpdate DifficultyLevels.BEGINNER p d now, ?_, ?_⟩
            · simp [applyProgressOp, hz, applySubmitProgress, ht]
            · exact applyDifficultyUpdate_expert _ p d now h
          · exact ⟨p, by simp [applyProgressOp, hz, applySubmitProgress, ht], h⟩

/-- C1 counterexample: the Mistral analyzeSpokenEnglish applies no
clamping on the parsed path, so an upstream JSON overallScore of 150 is
returned as 150, outside the 0 to 100 interval the claim asserts. -/
theorem mistral_overall_unclamped_cex :
    100 < (mistralAnalyzeSpokenEnglish 0 (LLMOutcome.parsed
      { overallScore := some 150, vocabularyScore := some 70,
        grammarScore := some 70, fluencyScore := some 70,
        pronunciationScore := some 70, level := some "B2",
        strengths := some [], improvements := some [],
        recommendations := some [], feedback := some "fine" })).overallScore := by
  decide

/-- C1 (amended): the OpenAI adapters clamp every numeric score into
0 to 100 (including the optional listening score and the image scores),
and the Mistral adapter's fallback results stay in range; the Mistral
parsed path passes upstream values through unclamped. -/
theorem score_clamp_amended :
    (∀ r : OAIAssessment,
      scoreInRange (openaiAnalyzeSpokenEnglish r).overallScore ∧
      scoreInRange (openaiAnalyzeSpokenEnglish r).pronunciationScore ∧
      scoreInRange (openaiAnalyzeSpokenEnglish r).fluencyScore ∧
      scoreInRange (openaiAnalyzeSpokenEnglish r).vocabularyScore ∧
      scoreInRange (openaiAnalyzeSpokenEnglish r).grammarScore ∧
      ∀ v, (openaiAnalyzeSpokenEnglish r).listeningScore = some v →
        scoreInRange v) ∧
    (∀ r : OAIAssessment, ∀ ic dl : Int,
      scoreInRange (openaiAnalyzeImageDescription r ic dl).overallScore ∧
      scoreInRange (openaiAnalyzeImageDescription r ic dl).pronunciationScore ∧
      scoreInRange (openaiAnalyzeImageDescription r ic dl).fluencyScore ∧
      scoreInRange (openaiAnalyzeImageDescription r ic dl).vocabularyScore ∧
      scoreInRange (openaiAnalyzeImageDescription r ic dl).grammarScore ∧
      scoreInRange (openaiAnalyzeImageDescription r ic dl).imageComprehension ∧
      scoreInRange (openaiAnalyzeImageDescription r ic dl).detailLevel) ∧
    (∀ now : Nat,
      scoreInRange (mistralParseFallback now).overallScore ∧
      scoreInRange (mistralParseFallback now).vocabularyScore ∧
      scoreInRange (mistralParseFallback now).grammarScore ∧
      scoreInRange (mistralParseFallback now).fluencyScore ∧
      scoreInRange (mistralParseFallback now).pronunciationScore ∧
      scoreInRange (mistralErrorFallback now).overallScore ∧
      scoreInRange (mistralErrorFallback now).vocabularyScore ∧
      scoreInRange (mistralErrorFallback now).grammarScore ∧
      scoreInRange (mistralErrorFallback now).fluencyScore ∧
      scoreInRange (mistralErrorFallback now).pronunciationScore) := by
  have h60 : scoreInRange 60 := by decide
  have h50 : scoreInRange 50 := by decide
  refine ⟨fun r => ⟨clampScore_range _, clampScore_range _, clampScore_range _,
      clampScore_range _, clampScore_range _, ?_⟩,
    fun r ic dl => ⟨clampScore_range _, clampScore_range _, clampScore_range _,
      clampScore_range _, clampScore_range _, clampScore_range _, clampScore_range _⟩,
    fun _ => ⟨h60, h60, h60, h60, h60, h50, h50, h50, h50, h50⟩⟩
  intro v hv
  simp only [openaiAnalyzeSpokenEnglish] at hv
  cases hl : r.listeningScore with
  | none => rw [hl] at hv; simp at hv
  | some w =>
      rw [hl] at hv
      by_cases hw : w = 0
      · simp [hw] at hv
      · simp [hw] at hv
        rw [← hv]
        exact clampScore_range w

/-- C1 witness: instantiating the amended theorem at a concrete
assessment whose listening score 120 is clamped to 100. -/
theorem score_clamp_amended_witness :
    (openaiAnalyzeSpokenEnglish demoOAI).listeningScore = some 100 ∧
    scoreInRange 100 :=
  ⟨by decide, (score_clamp_amended.1 demoOAI).2.2.2.2.2 100 (by decide)⟩

/-- C2: evaluating POST /api/submit-test-results on a submission scoring
85 at the user's currently highest unlocked intermediate tier. The zod
parse strips the promptId key, so the handler resolves the difficulty to
beginner: the response is 200, the beginner tier score (not the
intermediate one) absorbs the 85, and highestDifficultyUnlocked stays
intermediate instead of advancing to advanced. -/
theorem promptid_stripped_no_advance :
    strC2out.status = 200 ∧
    strC2out.progress.map (fun q => q.highestDifficultyUnlocked) =
      some DifficultyLevels.INTERMEDIATE ∧
    strC2out.progress.map (fun q => q.beginnerScore) = some 85 ∧
    strC2out.progress.map (fun q => q.intermediateScore) = some 70 := by
  decide

/-- C4: over every sequence of the route-handler operations that touch a
UserProgress record, the rank of highestDifficultyUnlocked never
decreases, and a record at the expert tier stays at the expert tier. -/
theorem difficulty_unlock_monotone (ops : List ProgressOp)
    (s : Option UserProgressM) :
    optRank s ≤ optRank (ops.foldl applyProgressOp s) ∧
    ∀ p, s = some p →
      p.highestDifficultyUnlocked = DifficultyLevels.EXPERT →
      ∃ q, ops.foldl applyProgressOp s = some q ∧
        q.highestDifficultyUnlocked = DifficultyLevels.EXPERT := by
  induction ops generalizing s with
  | nil =>
      refine ⟨le_rfl, ?_⟩
      intro p hs hp
      exact ⟨p, hs, hp⟩
  | cons op rest ih =>
      constructor
      · rw [List.foldl_cons]
        exact le_trans (optRank_applyProgressOp_ge s op)
          (ih (applyProgressOp s op)).1
      · intro p hs hp
        obtain ⟨q, hq, hqe⟩ := applyProgressOp_expert s op p hs hp
        obtain ⟨r, hr, hre⟩ := (ih (applyProgressOp s op)).2 q hq hqe
        refine ⟨r, ?_, hre⟩
        rw [List.foldl_cons]
        exact hr

/-- C4 witness: a GET followed by a submit applied to an expert-tier
record keeps the rank and the expert tier. -/
theorem difficulty_unlock_monotone_witness :
    optRank (some expertProgressDemo) ≤
      optRank ([ProgressOp.getOp 4 10,
                ProgressOp.submitOp demoPrompts demoRawC2 11].foldl
        applyProgressOp (some expertProgressDemo)) ∧
    ∃ q, [ProgressOp.getOp 4 10,
          ProgressOp.submitOp demoPrompts demoRawC2 11].foldl
        applyProgressOp (some expertProgressDemo) = some q ∧
      q.highestDifficultyUnlocked = DifficultyLevels.EXPERT :=
  ⟨(difficulty_unlock_monotone [ProgressOp.getOp 4 10,
      ProgressOp.submitOp demoPrompts demoRawC2 11] (some expertProgressDemo)).1,
   (difficulty_unlock_monotone [ProgressOp.getOp 4 10,
      ProgressOp.submitOp demoPrompts demoRawC2 11] (some expertProgressDemo)).2
     expertProgressDemo rfl rfl⟩

/-- C3 counterexample: a valid analyze request whose Mistral JSON is
unparsable gets a 200 whose body carries an evaluation but no fallback
key at all, refuting the claim that the client receives an object with
fallback set to true. -/
theorem malformed_json_no_flag_cex :
    cexMalformedOut.status = 200 ∧
    cexMalformedOut.body.lookup "fallback" = none ∧
    (cexMalformedOut.body.lookup "evaluation").isSome = true :=
  ⟨rfl, rfl, rfl⟩

/-- C3 (amended): on a malformed LLM JSON the Mistral adapter returns its
constant fallback result without rejecting, the route answers 200 with
that evaluation and no fallback key; the fallback flag is attached only
when the analysis call itself rejects. -/
theorem malformed_json_fallback_amended :
    (∀ now : Nat,
      mistralAnalyzeSpokenEnglish now LLMOutcome.unparsable = mistralParseFallback now ∧
      mistralAnalyzeSpokenEnglish now LLMOutcome.nonString = mistralParseFallback now) ∧
    (∀ (now : Nat) (f : String) (pid : Int) (pr : PromptM)
       (prompts : List (Int × PromptM)) (t : Option String),
      lookupPrompt prompts pid = some pr →
      (mistralSubmitAudio now { file := some f, promptIdNum := some pid, analyze := "true" }
          prompts (Except.ok t) LLMOutcome.unparsable).status = 200 ∧
      (mistralSubmitAudio now { file := some f, promptIdNum := some pid, analyze := "true" }
          prompts (Except.ok t) LLMOutcome.unparsable).body.lookup "fallback" = none ∧
      (mistralSubmitAudio now { file := some f, promptIdNum := some pid, analyze := "true" }
          prompts (Except.ok t) LLMOutcome.unparsable).body.lookup "evaluation" =
        some (JVal.jobj (evaluationJson
          (mistralAnalyzeSpeechWithLeMUR now (Except.ok t) LLMOutcome.unparsable)))) ∧
    (∀ (f : String) (pid : Int) (pr : PromptM)
       (prompts : List (Int × PromptM)) (t : Option String) (m : String),
      lookupPrompt prompts pid = some pr →
      (submitAudioHandler { file := some f, promptIdNum := some pid, analyze := "true" }
          prompts (Except.ok t) (Except.error m)).body.lookup "fallback" =
        some (JVal.jbool true)) := by
  refine ⟨fun now => ⟨rfl, rfl⟩, ?_, ?_⟩
  · intro now f pid pr prompts t h
    simp only [mistralSubmitAudio, submitAudioHandler, h]
    exact ⟨rfl, rfl, rfl⟩
  · intro f pid pr prompts t m h
    simp only [submitAudioHandler, h]
    rfl

/-- C3 witness: the amended theorem at a seeded prompt, both for the
unparsable-JSON 200 and for a rejecting analysis call. -/
theorem malformed_json_fallback_amended_witness :
    (mistralSubmitAudio 2 { file := some "a.webm", promptIdNum := some 1, analyze := "true" }
        demoPrompts (Except.ok (some "hi")) LLMOutcome.unparsable).status = 200 ∧
    (submitAudioHandler { file := some "a.webm", promptIdNum := some 1, analyze := "true" }
        demoPrompts (Except.ok (some "hi")) (Except.error "LeMUR down")).body.lookup "fallback" =
      some (JVal.jbool true) :=
  ⟨(malformed_json_fallback_amended.2.1 2 "a.webm" 1 _ demoPrompts (some "hi") rfl).1,
   malformed_json_fallback_amended.2.2 "a.webm" 1 _ demoPrompts (some "hi") "LeMUR down" rfl⟩

/-- C7 counterexample: a request whose file was stored by multer but
whose promptId is non-numeric is answered 400 before the inner
try-finally, so the stored file is not deleted. -/
theorem cleanup_missing_on_invalid_id_cex :
    cexBadPromptIdOut.status = 400 ∧ cexBadPromptIdOut.fileDeleted = false :=
  ⟨rfl, rfl⟩

/-- C7 (amended): on every path that reaches the transcription try block
(valid file, numeric promptId, known prompt) the uploaded file is
deleted, whatever the transcription, analyze flag and analysis do. -/
theorem cleanup_after_transcription (f : String) (pid : Int) (analyze : String)
    (prompts : List (Int × PromptM)) (pr : PromptM)
    (tr : Except String (Option String)) (an : Except String LemurEval)
    (h : lookupPrompt prompts pid = some pr) :
    (submitAudioHandler { file := some f, promptIdNum := some pid, analyze := analyze }
        prompts tr an).fileDeleted = true := by
  simp only [submitAudioHandler, h]
  cases tr with
  | error e => rfl
  | ok t =>
      by_cases ha : analyze = "true"
      · cases an with
        | ok ev => simp [ha]
        | error m => simp [ha]
      · simp [ha]

/-- C7 witness: the amended theorem at a seeded prompt with a successful
transcription and analysis. -/
theorem cleanup_after_transcription_witness :
    (submitAudioHandler { file := some "clip.webm", promptIdNum := some 1, analyze := "true" }
        demoPrompts (Except.ok (some "hi")) (Except.ok demoLemur)).fileDeleted = true :=
  cleanup_after_transcription "clip.webm" 1 "true" demoPrompts _
    (Except.ok (some "hi")) (Except.ok demoLemur) rfl

/-- C8 counterexample: a valid analyze request whose transcription
returned null text yields a 200 whose transcript field is the empty
string, refuting the claimed non-emptiness. -/
theorem empty_transcript_cex :
    cexEmptyTranscriptOut.status = 200 ∧
    cexEmptyTranscriptOut.body.lookup "transcript" = some (JVal.jstr "") ∧
    (cexEmptyTranscriptOut.body.lookup "evaluation").isSome = true :=
  ⟨rfl, rfl, rfl⟩

/-- C8 (amended): a valid analyze request whose transcription text is
non-empty yields a 200 carrying that transcript and an evaluation object
with all five score fields; the transcript is only as non-empty as the
transcription service makes it. -/
theorem analyze_response_fields_amended (now : Nat) (f : String) (pid : Int)
    (prompts : List (Int × PromptM)) (pr : PromptM) (t : String)
    (llm : LLMOutcome)
    (h : lookupPrompt prompts pid = some pr) (ht : t ≠ "") :
    (mistralSubmitAudio now { file := some f, promptIdNum := some pid, analyze := "true" }
        prompts (Except.ok (some t)) llm).status = 200 ∧
    (mistralSubmitAudio now { file := some f, promptIdNum := some pid, analyze := "true" }
        prompts (Except.ok (some t)) llm).body.lookup "transcript" =
      some (JVal.jstr t) ∧
    t ≠ "" ∧
    ∃ ev, (mistralSubmitAudio now { file := some f, promptIdNum := some pid, analyze := "true" }
        prompts (Except.ok (some t)) llm).body.lookup "evaluation" =
        some (JVal.jobj ev) ∧
      (∃ n, ev.lookup "overallScore" = some (JVal.jnum n)) ∧
      (∃ n, ev.lookup "vocabularyScore" = some (JVal.jnum n)) ∧
      (∃ n, ev.lookup "grammarScore" = some (JVal.jnum n)) ∧
      (∃ n, ev.lookup "fluencyScore" = some (JVal.jnum n)) ∧
      (∃ n, ev.lookup "pronunciationScore" = some (JVal.jnum n)) := by
  simp only [mistralSubmitAudio, submitAudioHandler, h]
  refine ⟨rfl, rfl, ht,
    evaluationJson (mistralAnalyzeSpeechWithLeMUR now (Except.ok (some t)) llm),
    rfl, ⟨_, rfl⟩, ⟨_, rfl⟩, ⟨_, rfl⟩, ⟨_, rfl⟩, ⟨_, rfl⟩⟩

/-- C8 witness: the amended theorem at a seeded prompt with transcript
text present. -/
theorem analyze_response_fields_amended_witness :
    (mistralSubmitAudio 0 { file := some "clip.webm", promptIdNum := some 1, analyze := "true" }
        demoPrompts (Except.ok (some "hello")) LLMOutcome.unparsable).status = 200 ∧
    (mistralSubmitAudio 0 { file := some "clip.webm", promptIdNum := some 1, analyze := "true" }
        demoPrompts (Except.ok (some "hello")) LLMOutcome.unparsable).body.lookup "transcript" =
      some (JVal.jstr "hello") :=
  ⟨(analyze_response_fields_amended 0 "clip.webm" 1 demoPrompts _ "hello"
      LLMOutcome.unparsable rfl (by decide)).1,
   (analyze_response_fields_amended 0 "clip.webm" 1 demoPrompts _ "hello"
      LLMOutcome.unparsable rfl (by decide)).2.1⟩

/-- C10: the Mistral adapter maps each upstream failure class to its
constant fallback result (for both the spoken-English and the image
analysis), and with this adapter wired in, no submit-audio response ever
carries the route-level fallback flag: the catch branch that attaches it
is unreachable. -/
theorem mistral_total_no_route_fallback :
    (∀ now : Nat,
      mistralAnalyzeSpokenEnglish now LLMOutcome.apiError = mistralErrorFallback now ∧
      mistralAnalyzeSpokenEnglish now LLMOutcome.nonString = mistralParseFallback now ∧
      mistralAnalyzeSpokenEnglish now LLMOutcome.unparsable = mistralParseFallback now ∧
      mistralAnalyzeImageDescription now LLMOutcome.apiError = mistralImageErrorFallback now ∧
      mistralAnalyzeImageDescription now LLMOutcome.nonString = mistralImageParseFallback now ∧
      mistralAnalyzeImageDescription now LLMOutcome.unparsable = mistralImageParseFallback now) ∧
    (∀ (now : Nat) (req : SubmitAudioReq) (prompts : List (Int × PromptM))
       (tr : Except String (Option String)) (llm : LLMOutcome),
      (mistralSubmitAudio now req prompts tr llm).body.lookup "fallback" = none) := by
  refine ⟨fun now => ⟨rfl, rfl, rfl, rfl, rfl, rfl⟩, ?_⟩
  intro now req prompts tr llm
  obtain ⟨file, pidNum, analyze⟩ := req
  cases file with
  | none => rfl
  | some f =>
      cases pidNum with
      | none => rfl
      | some pid =>
          cases hl : lookupPrompt prompts pid with
          | none => simp [mistralSubmitAudio, submitAudioHandler, hl, List.lookup]
          | some pr =>
              cases tr with
              | error e => simp [mistralSubmitAudio, submitAudioHandler, hl, List.lookup]
              | ok t =>
                  by_cases ha : analyze = "true"
                  · simp [mistralSubmitAudio, submitAudioHandler, hl, ha, List.lookup]
                  · simp [mistralSubmitAudio, submitAudioHandler, hl, ha, List.lookup]

/-- C5 counterexample: a valid body whose optional listeningScore is 0
round-trips to null, because createTestResult stores it through the
"value || null" coercion; the retrieved field is not the submitted 0. -/
theorem roundtrip_listening_zero_cex :
    demoInsListeningZero.listeningScore = some 0 ∧
    getTestResultS (createTestResultS emptyResultStore demoInsListeningZero 7).2
        (createTestResultS emptyResultStore demoInsListeningZero 7).1.id =
      some (createTestResultS emptyResultStore demoInsListeningZero 7).1 ∧
    (createTestResultS emptyResultStore demoInsListeningZero 7).1.listeningScore =
      none :=
  ⟨rfl, rfl, rfl⟩

/-- C5 (amended): the stored TestResult is retrievable under its id and
every submitted field is preserved, except that the optional numeric
fields userId, categoryId, listeningScore and testDuration submitted as
the falsy 0 are stored as null; non-zero values and all other fields
round-trip identically. -/
theorem result_roundtrip_amended (s : ResultStore) (ins : InsertTestResultM)
    (now : Nat) (r : TestResultM) (s2 : ResultStore)
    (h : createTestResultS s ins now = (r, s2)) :
    getTestResultS s2 r.id = some r ∧
    r.overallScore = ins.overallScore ∧
    r.pronunciationScore = ins.pronunciationScore ∧
    r.fluencyScore = ins.fluencyScore ∧
    r.vocabularyScore = ins.vocabularyScore ∧
    r.grammarScore = ins.grammarScore ∧
    r.cefrLevel = ins.cefrLevel ∧
    r.feedback = ins.feedback ∧
    (∀ l, ins.strengths = some l → r.strengths = l) ∧
    (∀ l, ins.improvements = some l → r.improvements = l) ∧
    (∀ l, ins.recommendations = some l → r.recommendations = l) ∧
    (∀ u, ins.userId = some u → u ≠ 0 → r.userId = some u) ∧
    (∀ c, ins.categoryId = some c → c ≠ 0 → r.categoryId = some c) ∧
    (∀ v, ins.listeningScore = some v → v ≠ 0 → r.listeningScore = some v) ∧
    (∀ v, ins.testDuration = some v → v ≠ 0 → r.testDuration = some v) := by
  have hr : r = (createTestResultS s ins now).1 := by rw [h]
  have hs2 : s2 = (createTestResultS s ins now).2 := by rw [h]
  subst hr; subst hs2
  refine ⟨?_, rfl, rfl, rfl, rfl, rfl, rfl, rfl, ?_, ?_, ?_, ?_, ?_, ?_, ?_⟩
  · simp [createTestResultS, getTestResultS, List.lookup]
  · intro l hl; simp [createTestResultS, hl]
  · intro l hl; simp [createTestResultS, hl]
  · intro l hl; simp [createTestResultS, hl]
  · intro u hu hne; simp [createTestResultS, jsOrNullInt, hu, hne]
  · intro c hc hne; simp [createTestResultS, jsOrNullInt, hc, hne]
  · intro v hv hne; simp [createTestResultS, jsOrNullInt, hv, hne]
  · intro v hv hne; simp [createTestResultS, jsOrNullInt, hv, hne]

/-- C5 witness: the round trip at a fully populated body with no falsy
optional fields. -/
theorem result_roundtrip_amended_witness :
    getTestResultS (createTestResultS emptyResultStore demoInsFull 11).2
        (createTestResultS emptyResultStore demoInsFull 11).1.id =
      some (createTestResultS emptyResultStore demoInsFull 11).1 ∧
    (createTestResultS emptyResultStore demoInsFull 11).1.userId = some 7 ∧
    (createTestResultS emptyResultStore demoInsFull 11).1.listeningScore = some 88 ∧
    (createTestResultS emptyResultStore demoInsFull 11).1.strengths =
      ["Vocabulary range"] := by
  obtain ⟨hA, _, _, _, _, _, _, _, hS, _, _, hU, _, hL, _⟩ :=
    result_roundtrip_amended emptyResultStore demoInsFull 11 _ _ rfl
  exact ⟨hA, hU 7 rfl (by decide), hL 88 rfl (by decide), hS _ rfl⟩

/-- C6 counterexample: a body failing insertTestResultSchema makes the
zod parse throw, and the catch of POST /api/submit-test-results answers
500, not the 400 the claim asserts for validation errors. -/
theorem schema_failure_500_cex :
    zodParse demoRawBad = none ∧
    (submitTestResultsHandler demoPrompts emptyResultStore none demoRawBad 3).status =
      500 :=
  ⟨rfl, rfl⟩

/-- C6 (amended): missing file and non-numeric ids on /api/submit-audio
and /api/user-progress are 400 and an unknown promptId is 404; on
/api/evaluate a non-numeric promptId behaves like an unknown one and is
404, and a missing transcript with no audio path is 400; a body failing
the insert schema on /api/submit-test-results is 500. -/
theorem error_status_amended :
    (∀ (pid : Option Int) (analyze : String) (prompts : List (Int × PromptM))
       (tr : Except String (Option String)) (an : Except String LemurEval),
      (submitAudioHandler { file := none, promptIdNum := pid, analyze := analyze }
          prompts tr an).status = 400) ∧
    (∀ (f analyze : String) (prompts : List (Int × PromptM))
       (tr : Except String (Option String)) (an : Except String LemurEval),
      (submitAudioHandler { file := some f, promptIdNum := none, analyze := analyze }
          prompts tr an).status = 400) ∧
    (∀ (f : String) (pid : Int) (analyze : String) (prompts : List (Int × PromptM))
       (tr : Except String (Option String)) (an : Except String LemurEval),
      lookupPrompt prompts pid = none →
      (submitAudioHandler { file := some f, promptIdNum := some pid, analyze := analyze }
          prompts tr an).status = 404) ∧
    (∀ (s : ProgressStore) (now : Nat),
      (userProgressHandler s none now).status = 400) ∧
    (∀ (prompts : List (Int × PromptM)) (t afp : Option String)
       (an : Except String LemurEval),
      (evaluateHandler prompts t none afp an).status = 404) ∧
    (∀ (prompts : List (Int × PromptM)) (pid : Int) (t afp : Option String)
       (an : Except String LemurEval),
      lookupPrompt prompts pid = none →
      (evaluateHandler prompts t (some pid) afp an).status = 404) ∧
    (∀ (prompts : List (Int × PromptM)) (pid : Int) (pr : PromptM)
       (t : Option String) (an : Except String LemurEval),
      lookupPrompt prompts pid = some pr → jsTruthyOptStr t = false →
      (evaluateHandler prompts t (some pid) none an).status = 400) ∧
    (∀ (prompts : List (Int × PromptM)) (rs : ResultStore)
       (p? : Option UserProgressM) (raw : RawBody) (now : Nat),
      zodParse raw = none →
      (submitTestResultsHandler prompts rs p? raw now).status = 500) := by
  refine ⟨fun pid analyze prompts tr an => rfl,
    fun f analyze prompts tr an => rfl, ?_,
    fun s now => rfl,
    fun prompts t afp an => rfl, ?_, ?_, ?_⟩
  · intro f pid analyze prompts tr an h
    simp [submitAudioHandler, h]
  · intro prompts pid t afp an h
    simp [evaluateHandler, h]
  · intro prompts pid pr t an h hf
    have hafp : jsTruthyOptStr (none : Option String) = false := rfl
    simp [evaluateHandler, h, hafp, hf]
  · intro prompts rs p? raw now h
    simp [submitTestResultsHandler, h]

/-- C6 witness: each clause of the amended error taxonomy at a concrete
request. -/
theorem error_status_amended_witness :
    (submitAudioHandler { file := none, promptIdNum := some 1, analyze := "true" }
        demoPrompts (Except.ok (some "x")) (Except.ok demoLemur)).status = 400 ∧
    (submitAudioHandler { file := some "f.webm", promptIdNum := some 99, analyze := "false" }
        demoPrompts (Except.ok (some "x")) (Except.ok demoLemur)).status = 404 ∧
    (evaluateHandler demoPrompts (some "hi") (some 99) none (Except.ok demoLemur)).status = 404 ∧
    (evaluateHandler demoPrompts none (some 1) none (Except.ok demoLemur)).status = 400 ∧
    (submitTestResultsHandler demoPrompts emptyResultStore none demoRawBad 3).status = 500 :=
  ⟨error_status_amended.1 (some 1) "true" demoPrompts (Except.ok (some "x")) (Except.ok demoLemur),
   error_status_amended.2.2.1 "f.webm" 99 "false" demoPrompts (Except.ok (some "x"))
     (Except.ok demoLemur) rfl,
   error_status_amended.2.2.2.2.2.1 demoPrompts 99 (some "hi") none (Except.ok demoLemur) rfl,
   error_status_amended.2.2.2.2.2.2.1 demoPrompts 1 _ none (Except.ok demoLemur) rfl rfl,
   error_status_amended.2.2.2.2.2.2.2 demoPrompts emptyResultStore none demoRawBad 3 rfl⟩

/-- C9 counterexample: for userId 0 the created record stores userId as
null, so the second identical GET does not observe it: it creates a
second record instead. -/
theorem userid_zero_get_recreates_cex :
    upFirst.status = 200 ∧ upSecond.progress ≠ upFirst.progress ∧
    upSecond.store.records.length = 2 := by
  decide

/-- C9 (amended): for every non-zero numeric userId with no progress
record, the GET creates and persists the default record (zero counters,
A2, beginner, zero tier scores) and a second identical GET observes
exactly that record while leaving the store unchanged. -/
theorem progress_get_creates_default (s : ProgressStore) (uid : Int)
    (now now2 : Nat) (hu : uid ≠ 0) (h : findProgress s uid = none) :
    ∃ p, (userProgressHandler s (some uid) now).progress = some p ∧
      p.testsCompleted = 0 ∧ p.averageScore = 0 ∧ p.currentCefrLevel = "A2" ∧
      p.highestDifficultyUnlocked = DifficultyLevels.BEGINNER ∧
      p.beginnerScore = 0 ∧ p.intermediateScore = 0 ∧ p.advancedScore = 0 ∧
      p.expertScore = 0 ∧
      findProgress (userProgressHandler s (some uid) now).store uid = some p ∧
      (userProgressHandler (userProgressHandler s (some uid) now).store
          (some uid) now2).progress = some p ∧
      (userProgressHandler (userProgressHandler s (some uid) now).store
          (some uid) now2).store = (userProgressHandler s (some uid) now).store := by
  have h0 : s.records.find? (fun kv => kv.2.userId == some uid) = none := by
    have hcopy := h
    unfold findProgress at hcopy
    cases hf : s.records.find? (fun kv => kv.2.userId == some uid) with
    | none => rfl
    | some kv => rw [hf] at hcopy; simp at hcopy
  have hq : (storageCreateUserProgress (defaultInsertProgress uid now)
      s.progressIdCounter).userId = some uid := by
    simp [storageCreateUserProgress, defaultInsertProgress, hu]
  have hstep : userProgressHandler s (some uid) now =
      ⟨200,
       some (storageCreateUserProgress (defaultInsertProgress uid now)
         s.progressIdCounter),
       ⟨s.records ++ [(s.progressIdCounter,
           storageCreateUserProgress (defaultInsertProgress uid now)
             s.progressIdCounter)],
        s.progressIdCounter + 1⟩⟩ := by
    simp only [userProgressHandler, h, createUserProgressS]
  have hfind : findProgress (userProgressHandler s (some uid) now).store uid =
      some (storageCreateUserProgress (defaultInsertProgress uid now)
        s.progressIdCounter) := by
    rw [hstep]
    unfold findProgress
    rw [find?_append_of_none _ _ _ h0]
    simp [List.find?, hq]
  have hfound : ∀ (st : ProgressStore) (q : UserProgressM),
      findProgress st uid = some q →
      userProgressHandler st (some uid) now2 = ⟨200, some q, st⟩ := by
    intro st q hf
    simp only [userProgressHandler, hf]
  have hsecond := hfound (userProgressHandler s (some uid) now).store
    (storageCreateUserProgress (defaultInsertProgress uid now) s.progressIdCounter)
    hfind
  refine ⟨storageCreateUserProgress (defaultInsertProgress uid now) s.progressIdCounter,
    ?_, rfl, rfl, rfl, rfl, rfl, rfl, rfl, rfl, hfind, ?_, ?_⟩
  · rw [hstep]
  · rw [hsecond]
  · rw [hsecond]

/-- C9 witness: the amended theorem against an empty store for userId 1. -/
theorem progress_get_creates_default_witness :
    ∃ p, (userProgressHandler emptyProgressStore (some 1) 3).progress = some p ∧
      p.testsCompleted = 0 ∧ p.averageScore = 0 ∧ p.currentCefrLevel = "A2" ∧
      p.highestDifficultyUnlocked = DifficultyLevels.BEGINNER ∧
      p.beginnerScore = 0 ∧ p.intermediateScore = 0 ∧ p.advancedScore = 0 ∧
      p.expertScore = 0 ∧
      findProgress (userProgressHandler emptyProgressStore (some 1) 3).store 1 = some p ∧
      (userProgressHandler (userProgressHandler emptyProgressStore (some 1) 3).store
          (some 1) 4).progress = some p ∧
      (userProgressHandler (userProgressHandler emptyProgressStore (some 1) 3).store
          (some 1) 4).store = (userProgressHandler emptyProgressStore (some 1) 3).store :=
  progress_get_creates_default emptyProgressStore 1 3 4 (by decide) (by decide)
